import Mathlib

/-
Verification development for the LinkedIn job scraper
(src/linkedin_scraper/linkedin_freelance_france_2025_API.py).

The Python source is shallowly embedded below.  Pure string processing
(cookie parsing, URL query stripping, basename sanitisation) is translated
directly; the Selenium-driven parts are embedded by making every DOM
interaction an explicit input (an oracle recording what each selector lookup
or script execution would yield), while keeping the control flow of the
source verbatim.  The FastAPI job state is a record, and each endpoint is a
state-transition function.
-/

/-! ## Python string primitives (models of the exact str methods used) -/

/-- Model of Python str.strip with no argument: remove leading and trailing
whitespace characters. -/
def pyStrip (s : String) : String :=
  (((s.data.dropWhile Char.isWhitespace).reverse.dropWhile Char.isWhitespace).reverse).asString

/-- Model of Python str.lower (ASCII case folding, which is all the source
compares). -/
def pyLower (s : String) : String :=
  (s.data.map Char.toLower).asString

/-- Model of Python str.upper (ASCII case folding). -/
def pyUpper (s : String) : String :=
  (s.data.map Char.toUpper).asString

/-- Model of Python str.lstrip applied with the single character dot:
remove every leading dot. -/
def lstripDot (s : String) : String :=
  (s.data.dropWhile (fun c => c = '.')).asString

/-- Accumulator worker for single-character str.split. -/
def splitCharAux (sep : Char) : List Char → List Char → List (List Char)
  | acc, [] => [acc.reverse]
  | acc, c :: cs =>
    if c = sep then acc.reverse :: splitCharAux sep [] cs
    else splitCharAux sep (c :: acc) cs

/-- Model of Python str.split with a one-character separator (the source
splits on a tab, on a question mark and on a middle dot). -/
def pySplit (sep : Char) (s : String) : List String :=
  (splitCharAux sep [] s.data).map List.asString

/-- Accumulator worker for str.splitlines. -/
def splitLinesAux : List Char → List Char → List String
  | acc, [] => if acc = [] then [] else [acc.reverse.asString]
  | acc, '\r' :: '\n' :: cs => acc.reverse.asString :: splitLinesAux [] cs
  | acc, '\n' :: cs => acc.reverse.asString :: splitLinesAux [] cs
  | acc, '\r' :: cs => acc.reverse.asString :: splitLinesAux [] cs
  | acc, c :: cs => splitLinesAux (c :: acc) cs

/-- Model of Python str.splitlines for the line endings that occur in
Netscape cookie exports. -/
def splitLines (s : String) : List String :=
  splitLinesAux [] s.data

/-- Boolean list test: the first list is an initial segment of the second. -/
def prefixCheck : List Char → List Char → Bool
  | [], _ => true
  | _ :: _, [] => false
  | a :: as, b :: bs => a == b && prefixCheck as bs

/-- Boolean list test: the first list occurs contiguously in the second. -/
def infixCheck (needle : List Char) : List Char → Bool
  | [] => prefixCheck needle []
  | c :: rest => prefixCheck needle (c :: rest) || infixCheck needle rest

/-- Model of the Python expression needle in hay on strings. -/
def containsSub (needle hay : String) : Bool :=
  infixCheck needle.data hay.data

/-- Model of the Python idiom s.split with a question mark then index 0:
the part of the string before the first question mark. -/
def stripQuery (s : String) : String :=
  (s.data.takeWhile (fun c => c ≠ '?')).asString

/-- Numeric value of an ASCII digit. -/
def digitVal (c : Char) : Nat := c.toNat - 48

/-- Worker for decimal digit parsing, allowing single underscores between
digits as Python int does. -/
def parseDigitsGo : Nat → List Char → Option Nat
  | acc, [] => some acc
  | acc, '_' :: c :: cs =>
    if c.isDigit then parseDigitsGo (acc * 10 + digitVal c) cs else none
  | _, ['_'] => none
  | acc, c :: cs =>
    if c.isDigit then parseDigitsGo (acc * 10 + digitVal c) cs else none

/-- Parse a nonempty ASCII digit sequence (with Python underscore grouping). -/
def parseDigits : List Char → Option Nat
  | [] => none
  | c :: cs => if c.isDigit then parseDigitsGo (digitVal c) cs else none

/-- Model of Python int applied to a string: surrounding whitespace is
stripped, an optional single sign is allowed, then decimal digits; on any
other input a ValueError is raised, modelled as none. -/
def pyParseInt (s : String) : Option Int :=
  match (pyStrip s).data with
  | '+' :: cs => (parseDigits cs).map (fun n => (n : Int))
  | '-' :: cs => (parseDigits cs).map (fun n => -(n : Int))
  | cs => (parseDigits cs).map (fun n => (n : Int))

/-! ## Cookie loader (parse_netscape_cookies, source lines 103 to 128) -/

/-- The cookie dictionary built by parse_netscape_cookies. -/
structure Cookie where
  name : String
  value : String
  domain : String
  path : String
  secure : Bool
  httpOnly : Bool
  sameSite : String
  expiry : Option Int
deriving DecidableEq

/-- One iteration of the parse_netscape_cookies loop: the treatment of a
single raw line of the cookie export. -/
def parseCookieLine (raw : String) : Option Cookie :=
  let line := pyStrip raw
  if line.data = [] then none
  else if line.data.head? = some '#' then none
  else
    match pySplit '\t' line with
    | domain :: _flag :: path :: secure :: expiry :: name :: value :: _ =>
      some {
        name := pyStrip name
        value := pyStrip value
        domain := lstripDot domain
        path := path
        secure := pyUpper secure == ("TRUE")
        httpOnly := false
        sameSite := ("Lax")
        expiry := if expiry = ("0") then none else pyParseInt expiry }
    | _ => none

/-- Embedding of parse_netscape_cookies: split the export text into lines
and treat each line as the loop body does. -/
def parse_netscape_cookies (text : String) : List Cookie :=
  (splitLines text).filterMap parseCookieLine

/-! ## Item extractor (extract_job, source lines 256 to 353)

The Selenium calls are replaced by an oracle describing what each of them
would yield for this card.  Every try block of the source becomes an
optional oracle field (none means the lookup inside the try block raised);
the two unguarded execute_script calls and the guarded click with its
unguarded programmatic fallback become three Booleans. -/

/-- Oracle for the people-who-can-help section: each field is none when the
corresponding nested lookup would raise. -/
structure RecruiterEnv where
  name : Option String
  profileHref : Option String
  presentation : Option String
deriving DecidableEq

/-- Oracle for one listing card and the detail panel it opens.
titleText none models the title link lookup or its text raising;
titleHref none models get_attribute returning no href (the subsequent
split then raises, after the title was already assigned).
scrollOk false models the unguarded scrollIntoView execute_script raising
(for example on a stale card handle); clickOk false models card.click
raising (caught by the source); jsClickOk false models the unguarded
programmatic click fallback raising. -/
structure CardEnv where
  titleText : Option String
  titleHref : Option String
  companyName : Option String
  locationText : Option String
  scrollOk : Bool
  clickOk : Bool
  jsClickOk : Bool
  infoText : Option String
  companyDesc : Option String
  jobDesc : Option String
  recruiter : Option RecruiterEnv
deriving DecidableEq

/-- The fixed record schema initialised at the top of extract_job; every
field starts at its explicit empty default. -/
structure JobRecord where
  REF : Nat
  company : String
  companyIndustry : String
  numberOfEmployee : String
  companyDescription : String
  jobTitle : String
  location : String
  recruiterName : String
  recruiterURLProfile : String
  recruiterPresentation : String
  jobDescription : String
  jobURL : String
deriving DecidableEq

/-- The job dictionary as initialised at the top of extract_job. -/
def emptyJob (index : Nat) : JobRecord :=
  { REF := index
    company := ("")
    companyIndustry := ("")
    numberOfEmployee := ("")
    companyDescription := ("")
    jobTitle := ("")
    location := ("")
    recruiterName := ("")
    recruiterURLProfile := ("")
    recruiterPresentation := ("")
    jobDescription := ("")
    jobURL := ("") }

/-- First try block: title text, then job URL with the query string
stripped.  When the href attribute is missing the source raises after the
title assignment, so only the URL keeps its default. -/
def stepTitle (env : CardEnv) (job : JobRecord) : JobRecord :=
  match env.titleText with
  | none => job
  | some txt =>
    let j2 := { job with jobTitle := pyStrip txt }
    match env.titleHref with
    | some href => { j2 with jobURL := stripQuery href }
    | none => j2

/-- Second try block: company name from the card. -/
def stepCompany (env : CardEnv) (job : JobRecord) : JobRecord :=
  match env.companyName with
  | none => job
  | some t => { job with company := pyStrip t }

/-- Third try block: location snippet from the card. -/
def stepLocation (env : CardEnv) (job : JobRecord) : JobRecord :=
  match env.locationText with
  | none => job
  | some t => { job with location := pyStrip t }

/-- The word searched for in the metadata segments. -/
def employeeToken : String := "employee"

/-- The for loop over the metadata segments: the last segment containing
the token employee (case-insensitively) wins. -/
def employeeFold (parts : List String) (init : String) : String :=
  parts.foldl (fun acc p => if containsSub employeeToken (pyLower p) then pyStrip p else acc) init

/-- Metadata try block: split the info line on the middle dot; segment 0 is
the industry, and the employee bucket is scanned for. -/
def stepInfo (env : CardEnv) (job : JobRecord) : JobRecord :=
  match env.infoText with
  | none => job
  | some info =>
    let parts := pySplit '·' info
    let j2 := { job with companyIndustry := pyStrip (parts.headD ("")) }
    { j2 with numberOfEmployee := employeeFold parts j2.numberOfEmployee }

/-- Company description try block. -/
def stepCompanyDesc (env : CardEnv) (job : JobRecord) : JobRecord :=
  match env.companyDesc with
  | none => job
  | some t => { job with companyDescription := pyStrip t }

/-- Job description try block. -/
def stepJobDesc (env : CardEnv) (job : JobRecord) : JobRecord :=
  match env.jobDesc with
  | none => job
  | some t => { job with jobDescription := pyStrip t }

/-- People-who-can-help try block with its three nested try blocks. -/
def stepRecruiter (env : CardEnv) (job : JobRecord) : JobRecord :=
  match env.recruiter with
  | none => job
  | some r =>
    let j1 := match r.name with
      | some t => { job with recruiterName := pyStrip t }
      | none => job
    let j2 := match r.profileHref with
      | some h => { j1 with recruiterURLProfile := stripQuery h }
      | none => j1
    match r.presentation with
    | some t => { j2 with recruiterPresentation := pyStrip t }
    | none => j2

/-- The three card-level try blocks executed before the card is activated. -/
def cardFields (env : CardEnv) (index : Nat) : JobRecord :=
  stepLocation env (stepCompany env (stepTitle env (emptyJob index)))

/-- The four detail-panel try blocks executed after the card is activated. -/
def panelFields (env : CardEnv) (job : JobRecord) : JobRecord :=
  stepRecruiter env (stepJobDesc env (stepCompanyDesc env (stepInfo env job)))

/-- Embedding of extract_job.  The card-level fields are filled first; then
the unguarded scrollIntoView script runs (raising if it fails), then the
click with its unguarded programmatic fallback; finally the panel fields
are filled.  A raise is modelled as Except.error carrying the exception
text. -/
def extract_job (env : CardEnv) (index : Nat) : Except String JobRecord :=
  let j := cardFields env index
  if !env.scrollOk then Except.error ("stale element reference")
  else if !env.clickOk && !env.jsClickOk then Except.error ("javascript error")
  else Except.ok (panelFields env j)

/-- The activation sequence of extract_job survives: the scroll script
succeeds and at least one of the two click paths succeeds. -/
def extractOk (env : CardEnv) : Bool :=
  env.scrollOk && (env.clickOk || env.jsClickOk)

/-- The record §4.4 of the spec describes, one independent match per field:
every field whose extraction step finds nothing stays at its empty default,
independently of every other field.  Proved below to be exactly what
extract_job produces whenever the activation sequence survives. -/
def jobRecordSpec (env : CardEnv) (index : Nat) : JobRecord :=
  { REF := index
    company := match env.companyName with
      | none => ("")
      | some t => pyStrip t
    companyIndustry := match env.infoText with
      | none => ("")
      | some info => pyStrip ((pySplit '·' info).headD (""))
    numberOfEmployee := match env.infoText with
      | none => ("")
      | some info => employeeFold (pySplit '·' info) ("")
    companyDescription := match env.companyDesc with
      | none => ("")
      | some t => pyStrip t
    jobTitle := match env.titleText with
      | none => ("")
      | some t => pyStrip t
    location := match env.locationText with
      | none => ("")
      | some t => pyStrip t
    recruiterName := match env.recruiter with
      | none => ("")
      | some r => match r.name with
        | none => ("")
        | some t => pyStrip t
    recruiterURLProfile := match env.recruiter with
      | none => ("")
      | some r => match r.profileHref with
        | none => ("")
        | some h => stripQuery h
    recruiterPresentation := match env.recruiter with
      | none => ("")
      | some r => match r.presentation with
        | none => ("")
        | some t => pyStrip t
    jobDescription := match env.jobDesc with
      | none => ("")
      | some t => pyStrip t
    jobURL := match env.titleText with
      | none => ("")
      | some _ => match env.titleHref with
        | none => ("")
        | some h => stripQuery h }

/-! ## Crawl session (run_scraper page loop, source lines 360 to 436) -/

/-- Python enumerate with a start index. -/
def withIndexFrom {α : Type} : Nat → List α → List (Nat × α)
  | _, [] => []
  | i, c :: cs => (i, c) :: withIndexFrom (i + 1) cs

/-- The inner extraction loop of run_scraper for one page: enumerate the
cards from 1, call extract_job with the global index, append the record on
success, and log and skip the card when extract_job raises. -/
def extractPage (cards : List CardEnv) (total : Nat) : List JobRecord :=
  (withIndexFrom 1 cards).filterMap (fun pc => (extract_job pc.2 (total + pc.1)).toOption)

/-- Oracle for one page of the crawl: whether the 30 second initial wait of
scroll_to_bottom_by_last_job finds a card (false models the wait raising a
TimeoutException), and the cards visible after scrolling. -/
structure PageEnv where
  waitOk : Bool
  cards : List CardEnv
deriving DecidableEq

/-- Embedding of the while loop of run_scraper.  The page list is the
sequence of pages the site would expose (the next-page button is present
exactly while further pages remain).  An unhandled TimeoutException from
the scroll wait aborts the whole loop, discarding the records accumulated
so far, exactly as the Python exception unwinds past the local results
list. -/
def runPages (maxPages : Nat) : List PageEnv → Nat → Nat → Except String (List JobRecord)
  | [], _, _ => Except.ok []
  | p :: rest, cur, total =>
    if maxPages < cur then Except.ok []
    else if p.waitOk = false then Except.error ("TimeoutException: no job card appeared within 30s")
    else
      match runPages maxPages rest (cur + 1) (total + p.cards.length) with
      | Except.ok more => Except.ok (extractPage p.cards total ++ more)
      | Except.error e => Except.error e

/-- Result dictionary of a finished crawl: the ok shape built at the end of
run_scraper, or the error shape built by the callers that catch. -/
inductive ScrapeResult where
  | ok (total_jobs : Nat) (file : String)
  | error (detail : String)
deriving DecidableEq

/-- Embedding of run_scraper: run the page loop; on success write the CSV
artifact (first component: the artifact name written, none when nothing was
written) and return the ok dictionary; an exception escapes unchanged
because run_scraper has only a finally clause, no except clause. -/
def run_scraper (pages : List PageEnv) (maxPages : Nat) (ts : String) :
    Option String × Except String ScrapeResult :=
  match runPages maxPages pages 1 0 with
  | Except.ok recs =>
    let filename := ("linkedin_jobs_") ++ ts ++ (".csv")
    (some filename, Except.ok (ScrapeResult.ok recs.length filename))
  | Except.error e => (none, Except.error e)

/-! ## Job state machine (SCRAPE_STATE, log, endpoints) -/

/-- The process-wide SCRAPE_STATE dictionary. -/
structure JobState where
  running : Bool
  logs : List String
  result : Option ScrapeResult
deriving DecidableEq

/-- SCRAPE_STATE as initialised at process start. -/
def initState : JobState :=
  { running := false, logs := [], result := none }

/-- Embedding of log (source lines 56 to 62): append the message, then trim
to the most recent 200 entries when the bound is exceeded. -/
def appendLog (s : JobState) (msg : String) : JobState :=
  let ls := s.logs ++ [msg]
  if 200 < ls.length then { s with logs := ls.drop (ls.length - 200) }
  else { s with logs := ls }

/-- Embedding of run_scraper_task (source lines 443 to 459).  emitted is
the sequence of messages the crawl passes to log, outcome is what
run_scraper returns or raises.  The entry block resets the state; the
except block stores the error dictionary and appends the error message to
the logs directly (without the trim of log); the finally block clears
running. -/
def run_scraper_task (emitted : List String) (outcome : Except String ScrapeResult)
    (_s0 : JobState) : JobState :=
  let s1 : JobState := { running := true, logs := [], result := none }
  let s2 := emitted.foldl appendLog s1
  match outcome with
  | Except.ok r =>
    let s3 := { s2 with result := some r }
    { s3 with running := false }
  | Except.error e =>
    let s3 := { s2 with
      result := some (ScrapeResult.error e)
      logs := s2.logs ++ [("ERROR: ") ++ e] }
    { s3 with running := false }

/-- Embedding of the synchronous endpoint scrape_linkedin (source lines 467
to 476): run the crawl in the request handler; its log calls append to the
shared state; return the result with HTTP 200, or the error dictionary
with HTTP 500.  running and result of the shared state are never touched. -/
def scrape_linkedin (emitted : List String) (outcome : Except String ScrapeResult)
    (s : JobState) : JobState × Nat × ScrapeResult :=
  let s2 := emitted.foldl appendLog s
  match outcome with
  | Except.ok r => (s2, 200, r)
  | Except.error e => (s2, 500, ScrapeResult.error e)

/-- Embedding of scrape_start (source lines 480 to 495): under the lock,
raise HTTP 409 when a run is active (before any mutation), otherwise reset
logs and result and set running before scheduling the background task. -/
def scrape_start (s : JobState) : JobState × Except Nat String :=
  if s.running then (s, Except.error 409)
  else ({ running := true, logs := [("Starting scrape...")], result := none },
        Except.ok ("started"))

/-- Embedding of scrape_status: a snapshot of the three fields. -/
def scrape_status (s : JobState) : Bool × List String × Option ScrapeResult :=
  (s.running, s.logs, s.result)

/-! ## Artifact retrieval (download_csv, source lines 508 to 519) -/

/-- Model of os.path.basename with the forward slash separator: the part of
the path after the last separator. -/
def basename (s : String) : String :=
  ((s.data.reverse.takeWhile (fun c => c ≠ '/')).reverse).asString

/-- Embedding of download_csv: sanitise the requested name to its base
component, join it to the application directory (modelled by the list of
file names existing there), and serve it when present, else HTTP 404. -/
def download_csv (existing : List String) (filename : String) : Except Nat String :=
  let safe := basename filename
  if existing.contains safe then Except.ok safe
  else Except.error 404

/-! ## Scroll convergence detector (scroll_to_bottom_by_last_job, source
lines 167 to 213)

The DOM is modelled by the stream of consecutive item-count reads the
function performs (each find_elements call is one read).  A zero first read
skips the iteration; otherwise the iteration scrolls and reads again,
resetting the stagnation counter on an increase and incrementing it
otherwise; the loop breaks when the counter reaches 12, or when the
iteration cap is exhausted; in either case one final read is returned. -/

/-- The for loop of scroll_to_bottom_by_last_job.  Arguments: remaining
iterations, index of the next count read, stagnation counter.  Returns the
read index after the loop, the final counter, and whether the loop broke on
convergence. -/
def scrollAux (reads : Nat → Nat) : Nat → Nat → Nat → Nat × Nat × Bool
  | 0, k, np => (k, np, false)
  | fuel + 1, k, np =>
    let c := reads k
    if c = 0 then scrollAux reads fuel (k + 1) np
    else
      let n := reads (k + 1)
      let np2 := if c < n then 0 else np + 1
      if 12 ≤ np2 then (k + 2, np2, true)
      else scrollAux reads fuel (k + 2) np2

/-- Embedding of scroll_to_bottom_by_last_job after a successful initial
wait: run the loop, then perform and return one final count read. -/
def scroll_to_bottom_by_last_job (reads : Nat → Nat) (maxScrolls : Nat) : Nat :=
  reads (scrollAux reads maxScrolls 0 0).1

/-- Specification-side stagnation counter after compare step j, written
from the spec: iteration j compares read 2j with read 2j+1; an increase
resets the counter to zero, otherwise it grows by one. -/
def stagAfter (reads : Nat → Nat) : Nat → Nat
  | 0 => if reads 0 < reads 1 then 0 else 1
  | j + 1 => if reads (2 * (j + 1)) < reads (2 * (j + 1) + 1) then 0 else stagAfter reads j + 1

/-- Specification-side stagnation counter before compare step j. -/
def stagBefore (reads : Nat → Nat) : Nat → Nat
  | 0 => 0
  | j + 1 => stagAfter reads j

/-! ## Concrete fixtures used by counterexamples and witnesses -/

/-- A card whose handle went stale before the unguarded scrollIntoView
script: every guarded lookup would still succeed, but the script raises. -/
def staleCard : CardEnv :=
  { titleText := some ("Dev")
    titleHref := some ("https://x/jobs/view/1?refId=9")
    companyName := some ("ACME")
    locationText := some ("Paris")
    scrollOk := false
    clickOk := true
    jsClickOk := true
    infoText := none
    companyDesc := none
    jobDesc := none
    recruiter := none }

/-- A fully healthy card. -/
def goodCard : CardEnv :=
  { titleText := some ("Dev")
    titleHref := some ("https://x/jobs/view/2?refId=7")
    companyName := some ("ACME")
    locationText := some ("Paris")
    scrollOk := true
    clickOk := true
    jsClickOk := true
    infoText := some ("Tech · 11-50 employees")
    companyDesc := some ("desc")
    jobDesc := some ("jd")
    recruiter := none }

/-- Two hundred log messages: a run that has already filled the ring. -/
def fullEmit : List String := List.replicate 200 ("scroll progress")

/-! ## Helper lemmas -/

/-- Round trip of the character list representation of strings. -/
theorem data_asString (l : List Char) : (List.asString l).data = l := rfl

/-- The first element surviving dropWhile does not satisfy the predicate. -/
theorem dropWhile_head_not (p : Char → Bool) (l : List Char) :
    ∀ x, (l.dropWhile p).head? = some x → p x = false := by
  induction l with
  | nil => intro x hx; simp at hx
  | cons c cs ih =>
    intro x hx
    by_cases hc : p c
    · rw [List.dropWhile_cons_of_pos hc] at hx
      exact ih x hx
    · rw [List.dropWhile_cons_of_neg hc] at hx
      simp at hx
      rw [hx] at hc
      simpa using hc

/-- The card-level pass of extract_job fills exactly the card fields of the
specification record, leaving all panel fields at their defaults. -/
theorem cardFields_eq (env : CardEnv) (index : Nat) :
    cardFields env index = { jobRecordSpec env index with
      companyIndustry := ("")
      numberOfEmployee := ("")
      companyDescription := ("")
      recruiterName := ("")
      recruiterURLProfile := ("")
      recruiterPresentation := ("")
      jobDescription := ("") } := by
  obtain ⟨tt, th, cn, lt, so, co, jo, it, cd, jd, rc⟩ := env
  cases tt <;> cases th <;> cases cn <;> cases lt <;> rfl

/-- The panel-level pass of extract_job updates exactly the panel fields,
each one independently from its own oracle component. -/
theorem panelFields_flat (env : CardEnv) (j : JobRecord) :
    panelFields env j = { j with
      companyIndustry := match env.infoText with
        | none => j.companyIndustry
        | some info => pyStrip ((pySplit '·' info).headD (""))
      numberOfEmployee := match env.infoText with
        | none => j.numberOfEmployee
        | some info => employeeFold (pySplit '·' info) j.numberOfEmployee
      companyDescription := match env.companyDesc with
        | none => j.companyDescription
        | some t => pyStrip t
      jobDescription := match env.jobDesc with
        | none => j.jobDescription
        | some t => pyStrip t
      recruiterName := match env.recruiter with
        | none => j.recruiterName
        | some r => match r.name with
          | none => j.recruiterName
          | some t => pyStrip t
      recruiterURLProfile := match env.recruiter with
        | none => j.recruiterURLProfile
        | some r => match r.profileHref with
          | none => j.recruiterURLProfile
          | some h => stripQuery h
      recruiterPresentation := match env.recruiter with
        | none => j.recruiterPresentation
        | some r => match r.presentation with
          | none => j.recruiterPresentation
          | some t => pyStrip t } := by
  obtain ⟨tt, th, cn, lt, so, co, jo, it, cd, jd, rc⟩ := env
  cases it <;> cases cd <;> cases jd <;> rcases rc with _ | ⟨rn, rp, rpr⟩
  all_goals try rfl
  all_goals cases rn <;> cases rp <;> cases rpr <;> rfl

/-- The two passes together produce exactly the specification record. -/
theorem extracted_eq (env : CardEnv) (index : Nat) :
    panelFields env (cardFields env index) = jobRecordSpec env index := by
  rw [cardFields_eq, panelFields_flat]
  rfl

/-- When the activation sequence survives, extract_job returns exactly the
specification record. -/
theorem extract_job_eq_ok (env : CardEnv) (index : Nat) (h : extractOk env = true) :
    extract_job env index = Except.ok (jobRecordSpec env index) := by
  unfold extractOk at h
  rw [Bool.and_eq_true] at h
  obtain ⟨hs, hc⟩ := h
  unfold extract_job
  rw [Bool.or_eq_true] at hc
  rcases hc with hc | hc <;> simp [hs, hc, extracted_eq]

/-- When the activation sequence faults, extract_job raises. -/
theorem extract_job_eq_err (env : CardEnv) (index : Nat) (h : extractOk env = false) :
    ∃ e, extract_job env index = Except.error e := by
  unfold extractOk at h
  unfold extract_job
  cases hs : env.scrollOk
  · exact ⟨("stale element reference"), by simp [hs]⟩
  · rw [hs] at h
    simp only [Bool.true_and, Bool.or_eq_false_iff] at h
    exact ⟨("javascript error"), by simp [hs, h.1, h.2]⟩

/-- Concatenation of adjacent unit-step ranges. -/
theorem range1_append (s m n : Nat) :
    List.range' s m ++ List.range' (s + m) n = List.range' s (m + n) := by
  induction m generalizing s with
  | zero => simp
  | succ k ih =>
    have e1 : s + (k + 1) = (s + 1) + k := by omega
    have e2 : k + 1 + n = (k + n) + 1 := by omega
    rw [e1, e2, List.range'_succ, List.range'_succ, List.cons_append, ih (s + 1)]

/-- The REF of the specification record is the index passed in. -/
theorem jobRecordSpec_REF (env : CardEnv) (index : Nat) :
    (jobRecordSpec env index).REF = index := rfl

/-- Per-page extraction with healthy cards yields records whose REF fields
are the consecutive global indices, in enumeration order. -/
theorem extractPage_aux_refs (total : Nat) (cards : List CardEnv) :
    ∀ i : Nat, (∀ c ∈ cards, extractOk c = true) →
    ((withIndexFrom i cards).filterMap
        (fun pc => (extract_job pc.2 (total + pc.1)).toOption)).map JobRecord.REF
      = List.range' (total + i) cards.length := by
  induction cards with
  | nil => intro i _; simp [withIndexFrom]
  | cons c cs ih =>
    intro i h
    have hc : extractOk c = true := h c (by simp)
    have ihs := ih (i + 1) (fun d hd => h d (by simp [hd]))
    simp only [withIndexFrom, List.filterMap_cons, extract_job_eq_ok c (total + i) hc,
      Except.toOption]
    have e1 : total + (i + 1) = (total + i) + 1 := by omega
    rw [e1] at ihs
    simp only [Except.toOption] at ihs
    simp [List.range'_succ, ihs, jobRecordSpec_REF]

/-- extractPage with healthy cards: REF fields are total+1 .. total+count. -/
theorem extractPage_refs (cards : List CardEnv) (total : Nat)
    (h : ∀ c ∈ cards, extractOk c = true) :
    (extractPage cards total).map JobRecord.REF = List.range' (total + 1) cards.length :=
  extractPage_aux_refs total cards 1 h

/-- The page loop, run over healthy pages that all fit under the page cap,
returns records whose REF fields are exactly the consecutive global
indices starting after total. -/
theorem runPages_refs (maxPages : Nat) (pages : List PageEnv) :
    ∀ cur total : Nat, (∀ p ∈ pages, p.waitOk = true) →
    (∀ p ∈ pages, ∀ c ∈ p.cards, extractOk c = true) →
    cur + pages.length ≤ maxPages + 1 →
    ∃ recs, runPages maxPages pages cur total = Except.ok recs ∧
      recs.map JobRecord.REF
        = List.range' (total + 1) (pages.map (fun p => p.cards.length)).sum := by
  induction pages with
  | nil => intro cur total _ _ _; exact ⟨[], rfl, by simp⟩
  | cons p ps ih =>
    intro cur total hwait hok hfit
    have hcur : ¬ maxPages < cur := by simp at hfit ⊢; omega
    have hpw : p.waitOk = true := hwait p (by simp)
    obtain ⟨more, hmore, hrefs⟩ := ih (cur + 1) (total + p.cards.length)
      (fun q hq => hwait q (by simp [hq]))
      (fun q hq => hok q (by simp [hq]))
      (by simp at hfit ⊢; omega)
    refine ⟨extractPage p.cards total ++ more, ?_, ?_⟩
    · unfold runPages
      rw [if_neg hcur, if_neg (by simp [hpw]), hmore]
    · have e1 : total + p.cards.length + 1 = (total + 1) + p.cards.length := by omega
      rw [e1] at hrefs
      rw [List.map_append, extractPage_refs p.cards total (hok p (by simp)), hrefs,
        range1_append]
      simp

/-- An unhandled scroll timeout on any reachable page makes the whole page
loop raise, discarding every record accumulated before it. -/
theorem runPages_timeout (maxPages : Nat) (bad : PageEnv) (after : List PageEnv)
    (hbad : bad.waitOk = false) (before : List PageEnv) :
    ∀ cur total : Nat, (∀ p ∈ before, p.waitOk = true) →
    cur + before.length ≤ maxPages →
    ∃ e, runPages maxPages (before ++ bad :: after) cur total = Except.error e := by
  induction before with
  | nil =>
    intro cur total _ hle
    refine ⟨("TimeoutException: no job card appeared within 30s"), ?_⟩
    simp only [List.nil_append]
    unfold runPages
    rw [if_neg (by simp at hle; omega), if_pos hbad]
  | cons p ps ih =>
    intro cur total hwait hle
    have hpw : p.waitOk = true := hwait p (by simp)
    obtain ⟨e, he⟩ := ih (cur + 1) (total + p.cards.length)
      (fun q hq => hwait q (by simp [hq]))
      (by simp at hle ⊢; omega)
    refine ⟨e, ?_⟩
    simp only [List.cons_append]
    unfold runPages
    rw [if_neg (by simp at hle; omega), if_neg (by simp [hpw]), he]

/-- A line that strips to nothing produces no cookie. -/
theorem parseCookieLine_blank (raw : String) (h : (pyStrip raw).data = []) :
    parseCookieLine raw = none := by
  unfold parseCookieLine
  simp [h]

/-- A comment line produces no cookie. -/
theorem parseCookieLine_hash (raw : String) (h : (pyStrip raw).data.head? = some '#') :
    parseCookieLine raw = none := by
  unfold parseCookieLine
  by_cases hb : (pyStrip raw).data = []
  · simp [hb]
  · simp [hb, h]

/-- A line with fewer than seven tab-separated fields produces no cookie. -/
theorem parseCookieLine_short (raw : String)
    (h : (pySplit '\t' (pyStrip raw)).length < 7) :
    parseCookieLine raw = none := by
  unfold parseCookieLine
  by_cases hb : (pyStrip raw).data = []
  · simp [hb]
  by_cases hh : (pyStrip raw).data.head? = some '#'
  · simp [hb, hh]
  rw [if_neg hb, if_neg hh]
  rcases hp : pySplit '\t' (pyStrip raw) with _ | ⟨a, _ | ⟨b, _ | ⟨c, _ | ⟨d, _ | ⟨e, _ | ⟨f, _ | ⟨g, rest⟩⟩⟩⟩⟩⟩⟩ <;>
    first
      | rfl
      | (rw [hp] at h; simp only [List.length_cons] at h; exact absurd h (by omega))

/-- A well-formed line produces exactly one cookie with the fields the
source assigns. -/
theorem parseCookieLine_full (raw : String)
    (domain flag path secure expiry name value : String) (rest : List String)
    (hp : pySplit '\t' (pyStrip raw)
      = domain :: flag :: path :: secure :: expiry :: name :: value :: rest)
    (hb : (pyStrip raw).data ≠ []) (hh : (pyStrip raw).data.head? ≠ some '#') :
    parseCookieLine raw = some {
      name := pyStrip name
      value := pyStrip value
      domain := lstripDot domain
      path := path
      secure := pyUpper secure == ("TRUE")
      httpOnly := false
      sameSite := ("Lax")
      expiry := if expiry = ("0") then none else pyParseInt expiry } := by
  unfold parseCookieLine
  rw [if_neg hb, if_neg hh, hp]

/-- The stripped domain never keeps a leading dot. -/
theorem lstripDot_head (s : String) :
    (lstripDot s).data.head? ≠ some '.' := by
  unfold lstripDot
  rw [data_asString]
  intro hx
  have := dropWhile_head_not (fun c => c = '.') s.data '.' hx
  simp at this

/-- Frame of appendLog: only the logs field changes. -/
theorem appendLog_frame (s : JobState) (msg : String) :
    (appendLog s msg).running = s.running ∧ (appendLog s msg).result = s.result := by
  by_cases h : 200 < s.logs.length + 1 <;> simp [appendLog, h]

/-- Frame of a whole fold of appendLog: running and result are untouched. -/
theorem foldl_appendLog_frame (emitted : List String) :
    ∀ s : JobState, (emitted.foldl appendLog s).running = s.running ∧
      (emitted.foldl appendLog s).result = s.result := by
  induction emitted with
  | nil => intro s; exact ⟨rfl, rfl⟩
  | cons m ms ih =>
    intro s
    have h1 := appendLog_frame s m
    have h2 := ih (appendLog s m)
    rw [List.foldl_cons]
    exact ⟨h2.1.trans h1.1, h2.2.trans h1.2⟩

/-- Unfolding of one compare step of the specification counter. -/
theorem stagAfter_step (reads : Nat → Nat) (j : Nat) :
    stagAfter reads j
      = if reads (2 * j) < reads (2 * j + 1) then 0 else stagBefore reads j + 1 := by
  cases j with
  | zero => rfl
  | succ k => rfl

/-- While the specification counter stays below 12, the loop consumes all
its fuel and ends in the exhaustion state. -/
theorem scrollAux_exhaust (reads : Nat → Nat) (hpos : ∀ i, 0 < reads i) (fuel : Nat) :
    ∀ j : Nat, (∀ d, j ≤ d → d < j + fuel → stagAfter reads d < 12) →
    scrollAux reads fuel (2 * j) (stagBefore reads j)
      = (2 * (j + fuel), stagBefore reads (j + fuel), false) := by
  induction fuel with
  | zero => intro j _; simp [scrollAux]
  | succ n ih =>
    intro j h
    have hc : ¬ reads (2 * j) = 0 := by have := hpos (2 * j); omega
    have h12 : ¬ 12 ≤ (if reads (2 * j) < reads (2 * j + 1) then 0
        else stagBefore reads j + 1) := by
      rw [← stagAfter_step]
      have := h j (Nat.le_refl j) (by omega)
      omega
    simp only [scrollAux]
    rw [if_neg hc, if_neg h12, ← stagAfter_step]
    have e1 : (2 : Nat) * j + 2 = 2 * (j + 1) := by omega
    have e2 : stagAfter reads j = stagBefore reads (j + 1) := rfl
    rw [e1, e2, ih (j + 1) (fun d hd1 hd2 => h d (by omega) (by omega))]
    have e3 : j + 1 + n = j + (n + 1) := by omega
    rw [e3]

/-- When the specification counter first reaches 12 within the fuel budget,
the loop breaks exactly there, with counter value 12, right after the
compare that reached it. -/
theorem scrollAux_stop (reads : Nat → Nat) (hpos : ∀ i, 0 < reads i) (fuel : Nat) :
    ∀ j jstop : Nat, j ≤ jstop → jstop < j + fuel →
    stagBefore reads j < 12 →
    (∀ d, j ≤ d → d < jstop → stagAfter reads d < 12) →
    12 ≤ stagAfter reads jstop →
    scrollAux reads fuel (2 * j) (stagBefore reads j) = (2 * (jstop + 1), 12, true) := by
  induction fuel with
  | zero => intro j jstop h1 h2 _ _ _; exact absurd h2 (by omega)
  | succ n ih =>
    intro j jstop hle hlt hsb hmin h12
    have hc : ¬ reads (2 * j) = 0 := by have := hpos (2 * j); omega
    by_cases hj : j = jstop
    · subst hj
      have hstep : stagAfter reads j = stagBefore reads j + 1 := by
        rw [stagAfter_step] at h12 ⊢
        by_cases hinc : reads (2 * j) < reads (2 * j + 1)
        · rw [if_pos hinc] at h12; omega
        · rw [if_neg hinc]
      have hval : stagAfter reads j = 12 := by omega
      simp only [scrollAux]
      rw [if_neg hc, ← stagAfter_step, if_pos h12, hval]
      have e1 : (2 : Nat) * j + 2 = 2 * (j + 1) := by omega
      rw [e1]
    · have hjlt : j < jstop := by omega
      have hAj : stagAfter reads j < 12 := hmin j (Nat.le_refl j) hjlt
      simp only [scrollAux]
      rw [if_neg hc, ← stagAfter_step, if_neg (by omega)]
      have e1 : (2 : Nat) * j + 2 = 2 * (j + 1) := by omega
      have e2 : stagAfter reads j = stagBefore reads (j + 1) := rfl
      rw [e1, e2]
      exact ih (j + 1) jstop (by omega) (by omega) (by rw [← e2]; exact hAj)
        (fun d hd1 hd2 => hmin d (by omega) hd2) h12

/-! ## Claim theorems -/

/-- Claim C1 (corrected).  For every listing-card oracle and 1-based global
index: every guarded per-field extraction step is independently isolated —
a fault in it leaves that field at its empty default without discarding the
record — and on success exactly one record is produced, with REF equal to
the given index.  But extract_job is not throw-free as the claim states:
when the unguarded scrollIntoView script faults, or the direct click faults
and the unguarded programmatic fallback also faults, extract_job raises,
and the page loop then discards that record. -/
theorem extract_job_field_isolation (env : CardEnv) (index : Nat) :
    (extractOk env = true →
      extract_job env index = Except.ok (jobRecordSpec env index) ∧
      (jobRecordSpec env index).REF = index ∧
      (env.titleText = none →
        (jobRecordSpec env index).jobTitle = ("") ∧
        (jobRecordSpec env index).jobURL = ("")) ∧
      (env.titleHref = none → (jobRecordSpec env index).jobURL = ("")) ∧
      (env.companyName = none → (jobRecordSpec env index).company = ("")) ∧
      (env.locationText = none → (jobRecordSpec env index).location = ("")) ∧
      (env.infoText = none →
        (jobRecordSpec env index).companyIndustry = ("") ∧
        (jobRecordSpec env index).numberOfEmployee = ("")) ∧
      (env.companyDesc = none → (jobRecordSpec env index).companyDescription = ("")) ∧
      (env.jobDesc = none → (jobRecordSpec env index).jobDescription = ("")) ∧
      (env.recruiter = none →
        (jobRecordSpec env index).recruiterName = ("") ∧
        (jobRecordSpec env index).recruiterURLProfile = ("") ∧
        (jobRecordSpec env index).recruiterPresentation = (""))) ∧
    (extractOk env = false → ∃ e, extract_job env index = Except.error e) := by
  constructor
  · intro h
    refine ⟨extract_job_eq_ok env index h, rfl, ?_, ?_, ?_, ?_, ?_, ?_, ?_, ?_⟩
    · intro ht; constructor <;> simp [jobRecordSpec, ht]
    · intro ht; cases htt : env.titleText <;> simp [jobRecordSpec, ht, htt]
    · intro hcn; simp [jobRecordSpec, hcn]
    · intro hlt; simp [jobRecordSpec, hlt]
    · intro hit; constructor <;> simp [jobRecordSpec, hit]
    · intro hcd; simp [jobRecordSpec, hcd]
    · intro hjd; simp [jobRecordSpec, hjd]
    · intro hrc; refine ⟨?_, ?_, ?_⟩ <;> simp [jobRecordSpec, hrc]
  · intro h
    exact extract_job_eq_err env index h

/-- Witness for C1 at a concrete healthy card and index. -/
theorem extract_job_field_isolation_witness :
    extractOk goodCard = true ∧
    extract_job goodCard 3 = Except.ok (jobRecordSpec goodCard 3) ∧
    (jobRecordSpec goodCard 3).REF = 3 :=
  ⟨by decide, ((extract_job_field_isolation goodCard 3).1 (by decide)).1,
    ((extract_job_field_isolation goodCard 3).1 (by decide)).2.1⟩

/-- Counterexample to C1 as stated: a stale card handle makes the unguarded
scrollIntoView script raise, so extract_job throws and the page loop
discards the record instead of producing one. -/
theorem extract_job_throws_cex :
    extract_job staleCard 1 = Except.error ("stale element reference") ∧
    extractPage [staleCard] 0 = [] :=
  ⟨rfl, rfl⟩

/-- Claim C2 (confirmed): a start while a run is active yields the 409
conflict and leaves the whole job state — in particular its logs and its
result — unchanged, because the source raises before any mutation under
the same lock. -/
theorem scrape_start_single_flight (s : JobState) (h : s.running = true) :
    scrape_start s = (s, Except.error 409) := by
  unfold scrape_start
  rw [if_pos h]

/-- Witness for C2 at a concrete busy state. -/
theorem scrape_start_single_flight_witness :
    ({ running := true, logs := [("a")], result := none } : JobState).running = true ∧
    scrape_start { running := true, logs := [("a")], result := none }
      = ({ running := true, logs := [("a")], result := none }, Except.error 409) :=
  ⟨rfl, scrape_start_single_flight _ rfl⟩

/-- Claim C3 (amended): when every page loads, every card extraction
succeeds, and the page count fits under the cap, the REF fields of the
produced record sequence are exactly 1..sum of the card counts — strictly
increasing in extraction order, global across pages, no gaps and no
duplicates.  (Unamended the claim fails: a card-level fault makes the page
loop skip that record, leaving a gap — see the counterexample.) -/
theorem crawl_ref_indices (pages : List PageEnv) (maxPages : Nat)
    (hwait : ∀ p ∈ pages, p.waitOk = true)
    (hok : ∀ p ∈ pages, ∀ c ∈ p.cards, extractOk c = true)
    (hfit : pages.length ≤ maxPages) :
    ∃ recs, runPages maxPages pages 1 0 = Except.ok recs ∧
      recs.map JobRecord.REF
        = List.range' 1 (pages.map (fun p => p.cards.length)).sum ∧
      recs.length = (pages.map (fun p => p.cards.length)).sum := by
  obtain ⟨recs, h1, h2⟩ := runPages_refs maxPages pages 1 0 hwait hok (by omega)
  refine ⟨recs, h1, by simpa using h2, ?_⟩
  have := congrArg List.length h2
  simpa using this

/-- Witness for C3 on a two-page crawl with one and two cards. -/
theorem crawl_ref_indices_witness :
    ∃ recs, runPages 50 [⟨true, [goodCard]⟩, ⟨true, [goodCard, goodCard]⟩] 1 0
        = Except.ok recs ∧
      recs.map JobRecord.REF = List.range' 1 3 ∧ recs.length = 3 := by
  have h := crawl_ref_indices [⟨true, [goodCard]⟩, ⟨true, [goodCard, goodCard]⟩] 50
    (by decide) (by decide) (by decide)
  simpa using h

/-- Counterexample to C3 as stated: one page exposing two cards where the
first card's extraction raises — the produced REF sequence is [2], not
[1, 2]: the index of the faulted card is skipped, leaving a gap. -/
theorem crawl_ref_gap_cex :
    Except.map (fun recs => recs.map JobRecord.REF)
      (runPages 50 [⟨true, [staleCard, goodCard]⟩] 1 0) = Except.ok [2] ∧
    (([⟨true, [staleCard, goodCard]⟩] : List PageEnv).map
        (fun p => p.cards.length)).sum = 2 := by
  constructor <;> rfl

/-- Claim C4 (amended): blank lines, comment lines and lines with fewer
than seven tab-separated fields produce no cookie; every well-formed line
produces exactly one cookie whose domain has every leading dot stripped and
whose expiry is present iff the raw expiry field is not the literal string
0 and parses as an integer.  The parsed value may itself be zero (for
example the raw field 00), which falsifies the unamended phrase "parsable
non-zero integer" — see the counterexample. -/
theorem parse_netscape_cookies_spec (text : String) :
    parse_netscape_cookies text = (splitLines text).filterMap parseCookieLine ∧
    ∀ raw : String,
      ((pyStrip raw).data = [] → parseCookieLine raw = none) ∧
      ((pyStrip raw).data.head? = some '#' → parseCookieLine raw = none) ∧
      ((pySplit '\t' (pyStrip raw)).length < 7 → parseCookieLine raw = none) ∧
      (∀ domain flag path secure expiry name value rest,
        pySplit '\t' (pyStrip raw)
          = domain :: flag :: path :: secure :: expiry :: name :: value :: rest →
        (pyStrip raw).data ≠ [] →
        (pyStrip raw).data.head? ≠ some '#' →
        ∃ c, parseCookieLine raw = some c ∧
          c.domain = lstripDot domain ∧
          c.domain.data.head? ≠ some '.' ∧
          c.expiry = (if expiry = ("0") then none else pyParseInt expiry) ∧
          (c.expiry.isSome ↔ (expiry ≠ ("0") ∧ (pyParseInt expiry).isSome))) := by
  refine ⟨rfl, fun raw => ⟨parseCookieLine_blank raw, parseCookieLine_hash raw,
    parseCookieLine_short raw, ?_⟩⟩
  intro domain flag path secure expiry name value rest hp hb hh
  refine ⟨_, parseCookieLine_full raw domain flag path secure expiry name value rest hp hb hh,
    rfl, lstripDot_head domain, rfl, ?_⟩
  by_cases h0 : expiry = ("0")
  · simp [h0]
  · cases hpi : pyParseInt expiry <;> simp [h0, hpi]

/-- Witness for C4 on a concrete well-formed cookie line. -/
theorem parse_netscape_cookies_spec_witness :
    ∃ c, parseCookieLine (".linkedin.com\tTRUE\t/\tTRUE\t1700000000\tli_at\ttok")
        = some c ∧
      c.domain = lstripDot (".linkedin.com") ∧
      c.domain.data.head? ≠ some '.' ∧
      c.expiry = (if ("1700000000" : String) = ("0") then none
                  else pyParseInt ("1700000000")) ∧
      (c.expiry.isSome ↔ (("1700000000" : String) ≠ ("0")
        ∧ (pyParseInt ("1700000000")).isSome)) :=
  ((parse_netscape_cookies_spec ("")).2
      (".linkedin.com\tTRUE\t/\tTRUE\t1700000000\tli_at\ttok")).2.2.2
    (".linkedin.com") ("TRUE") ("/") ("TRUE") ("1700000000") ("li_at") ("tok") []
    (by decide) (by decide) (by decide)

/-- Counterexample to C4 as stated: the raw expiry field 00 parses to the
integer zero, yet the produced cookie carries expiry = some 0 — an expiry
is present although the raw field is not a parsable non-zero integer. -/
theorem cookie_expiry_zero_cex :
    parse_netscape_cookies ("example.com\tTRUE\t/\tTRUE\t00\tname\tvalue")
      = [{ name := ("name")
           value := ("value")
           domain := ("example.com")
           path := ("/")
           secure := true
           httpOnly := false
           sameSite := ("Lax")
           expiry := some 0 }] ∧
    pyParseInt ("00") = some 0 := by
  constructor <;> rfl

/-- Claim C5 (confirmed, for runs in which every count read is positive —
the regime the successful initial wait establishes): the loop terminates
successfully exactly when the stagnation counter reaches 12, at the first
compare step where 12 consecutive non-increasing reads have accumulated
(the counter resets on any increase); it terminates by exhaustion when the
iteration cap is reached first; and in either case the function returns the
final, freshly read visible item count. -/
theorem scroll_convergence (reads : Nat → Nat) (maxScrolls : Nat)
    (hpos : ∀ i, 0 < reads i) :
    (∀ jstop, jstop < maxScrolls →
      (∀ d, d < jstop → stagAfter reads d < 12) →
      12 ≤ stagAfter reads jstop →
      scrollAux reads maxScrolls 0 0 = (2 * (jstop + 1), 12, true) ∧
      scroll_to_bottom_by_last_job reads maxScrolls = reads (2 * (jstop + 1))) ∧
    ((∀ d, d < maxScrolls → stagAfter reads d < 12) →
      scrollAux reads maxScrolls 0 0
        = (2 * maxScrolls, stagBefore reads maxScrolls, false) ∧
      scroll_to_bottom_by_last_job reads maxScrolls = reads (2 * maxScrolls)) := by
  constructor
  · intro jstop hlt hmin h12
    have h0 := scrollAux_stop reads hpos maxScrolls 0 jstop (by omega) (by omega)
      (by simp [stagBefore]) (fun d _ hd => hmin d hd) h12
    have e0 : (2 : Nat) * 0 = 0 := rfl
    have eb : stagBefore reads 0 = 0 := rfl
    rw [e0, eb] at h0
    refine ⟨h0, ?_⟩
    unfold scroll_to_bottom_by_last_job
    rw [h0]
  · intro hall
    have h0 := scrollAux_exhaust reads hpos maxScrolls 0 (fun d _ hd => hall d (by omega))
    have e0 : (2 : Nat) * 0 = 0 := rfl
    have eb : stagBefore reads 0 = 0 := rfl
    rw [e0, eb] at h0
    have e1 : 0 + maxScrolls = maxScrolls := by omega
    rw [e1] at h0
    refine ⟨h0, ?_⟩
    unfold scroll_to_bottom_by_last_job
    rw [h0]

/-- Witness for C5 on a constant five-item list: the counter reaches 12 at
compare step 11, the loop breaks there, and the final read is returned. -/
theorem scroll_convergence_witness :
    (∀ i, 0 < (fun _ => 5 : Nat → Nat) i) ∧
    scrollAux (fun _ => 5) 300 0 0 = (24, 12, true) ∧
    scroll_to_bottom_by_last_job (fun _ => 5) 300 = 5 := by
  have hpos : ∀ i, 0 < (fun _ => 5 : Nat → Nat) i := fun _ => Nat.succ_pos 4
  have h := (scroll_convergence (fun _ => 5) 300 hpos).1 11 (by omega) (by decide) (by decide)
  exact ⟨hpos, by simpa using h.1, by simpa using h.2⟩

/-- Claim C6 (confirmed): whether the crawl returns or raises, the
background wrapper finalises the state — running is cleared and result is
set, either to the returned dictionary or to an error-kind dictionary
carrying the exception text; the exception is consumed by the wrapper,
never propagated further. -/
theorem run_scraper_task_finalizes (emitted : List String)
    (outcome : Except String ScrapeResult) (s0 : JobState) :
    (run_scraper_task emitted outcome s0).running = false ∧
    (run_scraper_task emitted outcome s0).result
      = some (match outcome with
              | Except.ok r => r
              | Except.error e => ScrapeResult.error e) := by
  cases outcome <;> simp [run_scraper_task]

/-- Claim C7 (amended): the requested name is sanitised to its base
component, which never contains a path separator — so retrieval can never
reach outside the artifact directory; the request is answered not-found iff
no file with that base name exists in the directory.  (Unamended the claim
fails: a name containing a separator whose base component does exist in the
directory is served, not rejected — see the counterexample.) -/
theorem download_csv_sanitized (existing : List String) (filename : String) :
    (∀ c ∈ (basename filename).data, c ≠ '/') ∧
    download_csv existing filename
      = (if existing.contains (basename filename) then Except.ok (basename filename)
         else Except.error 404) := by
  constructor
  · intro c hc
    unfold basename at hc
    rw [data_asString] at hc
    rw [List.mem_reverse] at hc
    have := List.mem_takeWhile_imp hc
    simpa using this
  · rfl

/-- Witness for C7 at a concrete request containing a separator. -/
theorem download_csv_sanitized_witness :
    ('a' ∈ (basename ("dir/a.csv")).data → 'a' ≠ '/') ∧
    download_csv [("a.csv")] ("dir/a.csv")
      = (if ([("a.csv")] : List String).contains (basename ("dir/a.csv"))
         then Except.ok (basename ("dir/a.csv")) else Except.error 404) :=
  ⟨(download_csv_sanitized [("a.csv")] ("dir/a.csv")).1 'a',
    (download_csv_sanitized [("a.csv")] ("dir/a.csv")).2⟩

/-- Counterexample to C7 as stated: the requested name contains a path
separator, a file with the same base name exists in the artifact directory,
and the request is served rather than rejected as not-found. -/
theorem download_path_sep_cex :
    download_csv [("linkedin_jobs_1.csv")] ("evil/linkedin_jobs_1.csv")
      = Except.ok ("linkedin_jobs_1.csv") ∧
    '/' ∈ ("evil/linkedin_jobs_1.csv").data := by
  constructor
  · rfl
  · decide

/-- Claim C8 (amended): the synchronous endpoint blocks, returns the crawl
result directly (HTTP 200 on success, the error dictionary with HTTP 500 on
an exception) and never touches the running flag or the result field of the
shared job state — but the crawl it runs logs through the shared helper, so
the shared logs sequence is appended to, which falsifies the unamended
claim that the logs are left unchanged (see the counterexample). -/
theorem scrape_linkedin_frame (emitted : List String)
    (outcome : Except String ScrapeResult) (s : JobState) :
    (scrape_linkedin emitted outcome s).1.running = s.running ∧
    (scrape_linkedin emitted outcome s).1.result = s.result ∧
    (scrape_linkedin emitted outcome s).1.logs = (emitted.foldl appendLog s).logs ∧
    (∀ r, outcome = Except.ok r → (scrape_linkedin emitted outcome s).2 = (200, r)) ∧
    (∀ e, outcome = Except.error e →
      (scrape_linkedin emitted outcome s).2 = (500, ScrapeResult.error e)) := by
  have hf := foldl_appendLog_frame emitted s
  cases outcome with
  | ok r =>
    refine ⟨hf.1, hf.2, rfl, ?_, ?_⟩
    · intro r2 hr
      cases hr
      rfl
    · intro e2 he
      simp at he
  | error e =>
    refine ⟨hf.1, hf.2, rfl, ?_, ?_⟩
    · intro r2 hr
      simp at hr
    · intro e2 he
      cases he
      rfl

/-- Witness for C8 at a concrete successful synchronous run. -/
theorem scrape_linkedin_frame_witness :
    (scrape_linkedin [("page 1")] (Except.ok (ScrapeResult.ok 2 ("f.csv")))
        initState).1.running = initState.running ∧
    (scrape_linkedin [("page 1")] (Except.ok (ScrapeResult.ok 2 ("f.csv")))
        initState).1.result = initState.result ∧
    (scrape_linkedin [("page 1")] (Except.ok (ScrapeResult.ok 2 ("f.csv")))
        initState).2 = (200, ScrapeResult.ok 2 ("f.csv")) := by
  have h := scrape_linkedin_frame [("page 1")]
    (Except.ok (ScrapeResult.ok 2 ("f.csv"))) initState
  exact ⟨h.1, h.2.1, h.2.2.2.1 (ScrapeResult.ok 2 ("f.csv")) rfl⟩

/-- Counterexample to C8 as stated: a synchronous invocation on the fresh
state leaves a log entry behind — the shared logs sequence is mutated. -/
theorem scrape_linkedin_logs_cex :
    (scrape_linkedin [("Cookies loaded")] (Except.ok (ScrapeResult.ok 0 ("f.csv")))
        initState).1.logs = [("Cookies loaded")] ∧
    initState.logs = [] :=
  ⟨rfl, rfl⟩

/-- Claim C9 (amended): every append made through the log helper keeps at
most the 200 most recent entries, dropping the oldest first — the resulting
logs are exactly the stated suffix of the old logs plus the new message —
and touches neither running nor result.  (The direct error append in the
background task bypasses this trim, so a status reader can observe 201
entries after a failed run: see the counterexample.) -/
theorem log_ring_bound (s : JobState) (msg : String) (h : s.logs.length ≤ 200) :
    (appendLog s msg).logs = (s.logs ++ [msg]).drop ((s.logs ++ [msg]).length - 200) ∧
    (appendLog s msg).logs.length ≤ 200 ∧
    (appendLog s msg).running = s.running ∧
    (appendLog s msg).result = s.result := by
  refine ⟨?_, ?_, (appendLog_frame s msg).1, (appendLog_frame s msg).2⟩
  · by_cases hlen : 200 < s.logs.length + 1
    · simp [appendLog, hlen]
    · have h0 : (s.logs ++ [msg]).length - 200 = 0 := by simp; omega
      rw [h0, List.drop_zero]
      simp [appendLog, hlen]
  · by_cases hlen : 200 < s.logs.length + 1
    · simp [appendLog, hlen]; omega
    · simp [appendLog, hlen]; omega

/-- Witness for C9 at the fresh state. -/
theorem log_ring_bound_witness :
    initState.logs.length ≤ 200 ∧
    (appendLog initState ("m")).logs = [("m")] ∧
    (appendLog initState ("m")).logs.length ≤ 200 := by
  have h := log_ring_bound initState ("m") (by simp [initState])
  exact ⟨by simp [initState], by simpa using h.1, h.2.1⟩

set_option maxRecDepth 100000 in
/-- Counterexample to C9 as stated: a run fills the ring to 200 entries and
then fails; the except branch appends the error line without the trim, and
the status snapshot a concurrent reader gets holds 201 entries. -/
theorem log_ring_overflow_cex :
    ((scrape_status (run_scraper_task fullEmit (Except.error ("boom"))
        initState)).2.1).length = 201 := by
  rfl

/-- Claim C10 (confirmed): when the scroll wait times out on a reachable
page, the TimeoutException is not handled by the page loop — run_scraper
raises, writing no artifact and discarding every record extracted on the
earlier pages of the run, and the background wrapper captures the exception
as an error-kind result with running cleared. -/
theorem timeout_aborts_run (before : List PageEnv) (bad : PageEnv)
    (after : List PageEnv) (maxPages : Nat) (ts : String)
    (emitted : List String) (s0 : JobState)
    (hwait : ∀ p ∈ before, p.waitOk = true) (hbad : bad.waitOk = false)
    (hreach : before.length < maxPages) :
    ∃ e, run_scraper (before ++ bad :: after) maxPages ts = (none, Except.error e) ∧
      (run_scraper_task emitted (Except.error e) s0).running = false ∧
      (run_scraper_task emitted (Except.error e) s0).result
        = some (ScrapeResult.error e) := by
  obtain ⟨e, he⟩ := runPages_timeout maxPages bad after hbad before 1 0 hwait (by omega)
  refine ⟨e, ?_, ?_, ?_⟩
  · unfold run_scraper
    rw [he]
  · simp [run_scraper_task]
  · simp [run_scraper_task]

/-- Witness for C10: a crawl whose very first page never shows a card. -/
theorem timeout_aborts_run_witness :
    (∀ p ∈ ([] : List PageEnv), p.waitOk = true) ∧
    (⟨false, []⟩ : PageEnv).waitOk = false ∧
    (∃ e, run_scraper ([] ++ (⟨false, []⟩ : PageEnv) :: []) 50 ("20250101")
        = (none, Except.error e) ∧
      (run_scraper_task [] (Except.error e) initState).running = false ∧
      (run_scraper_task [] (Except.error e) initState).result
        = some (ScrapeResult.error e)) :=
  ⟨by simp, rfl,
    timeout_aborts_run [] ⟨false, []⟩ [] 50 ("20250101") [] initState
      (by simp) rfl (by decide)⟩
